import Mathlib

/-
Verification development for the CosmoPulse orbit-propagation and
risk-assessment engine (risk_assessment.py, data_processor.py,
orbit_engine.py).

Modelling conventions:
- Python floats are modelled as real numbers.
- The Python builtin round(x, 2) is modelled by round2 below.
- Python dicts whose key set varies between branches are modelled by
  structures with Option-valued fields (a missing key is none); a
  subscript lookup of a possibly missing key is modelled by a match
  that produces an Except error on none, mirroring a KeyError.
- Functions that catch every exception and return an empty dict are
  modelled with Option (none models the returned empty dict).
- Human-readable message strings and wall-clock timestamps carried in
  alert dicts are not modelled; the claims under study do not mention
  them.
-/

/-- Model of the Python builtin round(x, 2): rounding to two decimal
places (ties at the third decimal are rounded up in this model; no
claim under study evaluates the function at such a tie). -/
noncomputable def round2 (x : ℝ) : ℝ := ((round (x * 100) : ℤ) : ℝ) / 100

lemma round2_mono {x y : ℝ} (h : x ≤ y) : round2 x ≤ round2 y := by
  unfold round2
  have hr : round (x * 100) ≤ round (y * 100) := by
    rw [round_eq, round_eq]
    exact Int.floor_mono (by linarith)
  have : ((round (x * 100) : ℤ) : ℝ) ≤ ((round (y * 100) : ℤ) : ℝ) := by
    exact_mod_cast hr
  linarith

lemma round2_nonneg {x : ℝ} (h : 0 ≤ x) : 0 ≤ round2 x := by
  unfold round2
  have hr : (0 : ℤ) ≤ round (x * 100) := by
    rw [round_eq]
    exact Int.floor_nonneg.mpr (by linarith)
  have : (0 : ℝ) ≤ ((round (x * 100) : ℤ) : ℝ) := by exact_mod_cast hr
  linarith

lemma round2_le_100 {x : ℝ} (h : x ≤ 100) : round2 x ≤ 100 := by
  unfold round2
  have hfl : (⌊(10000 + 1 / 2 : ℝ)⌋ : ℤ) = 10000 := by norm_num
  have hr : round (x * 100) ≤ 10000 := by
    rw [round_eq]
    calc ⌊x * 100 + 1 / 2⌋ ≤ ⌊(10000 + 1 / 2 : ℝ)⌋ := Int.floor_mono (by linarith)
    _ = 10000 := hfl
  have : ((round (x * 100) : ℤ) : ℝ) ≤ 10000 := by exact_mod_cast hr
  linarith

lemma round2_zero : round2 0 = 0 := by
  unfold round2
  norm_num [round_eq]

/- ======================================================================
RiskAssessment.__init__ thresholds (risk_assessment.py lines 14-16).
====================================================================== -/

def collision_threshold : ℝ := 5
def critical_threshold : ℝ := 2
def warning_threshold : ℝ := 10

/-- Proximity component of RiskAssessment.calculate_collision_risk
(risk_assessment.py lines 25-37), factored out of the if/elif chain. -/
noncomputable def proximity_score (d : ℝ) : ℝ :=
  if d ≤ critical_threshold then 100
  else if d ≤ collision_threshold then 80
  else if d ≤ warning_threshold then
    50 * (1 - (d - collision_threshold) / (warning_threshold - collision_threshold))
  else 20 * Real.exp (-(d - warning_threshold) / 10)

/-- Threat-level component of the same if/elif chain
(risk_assessment.py lines 25-37). -/
noncomputable def threat_level (d : ℝ) : String :=
  if d ≤ critical_threshold then "CRITICAL"
  else if d ≤ collision_threshold then "HIGH"
  else if d ≤ warning_threshold then "MEDIUM"
  else "LOW"

/-- Return dict of RiskAssessment.calculate_collision_risk
(risk_assessment.py lines 48-56). -/
structure RiskResult where
  risk_score : ℝ
  threat_level : String
  distance_km : ℝ
  relative_velocity : ℝ
  proximity_score : ℝ
  velocity_score : ℝ
  size_score : ℝ

/-- Embedding of RiskAssessment.calculate_collision_risk
(risk_assessment.py lines 18-56). -/
noncomputable def calculate_collision_risk (distance_km relative_velocity_km_s rcs1 rcs2 : ℝ) :
    RiskResult :=
  let proximity := proximity_score distance_km
  let level := threat_level distance_km
  let velocity_score := min 100 (relative_velocity_km_s * 10)
  let size_score := min 100 ((rcs1 + rcs2) * 500)
  let risk_score := proximity * 0.6 + velocity_score * 0.3 + size_score * 0.1
  { risk_score := round2 risk_score
    threat_level := level
    distance_km := distance_km
    relative_velocity := relative_velocity_km_s
    proximity_score := round2 proximity
    velocity_score := round2 velocity_score
    size_score := round2 size_score }

/-- CollisionRiskScorer result as worded by the spec, for comparison
with the source embedding: same piecewise proximity and level, same
velocity and size scores, and risk_score = 0.6 proximity +
0.3 velocity_score + 0.1 size_score rounded to 2 decimals and clamped
to the interval from 0 to 100 (spec section 4.6). Component scores are
returned rounded to two decimals, as the source returns them. -/
noncomputable def spec_collision_risk (d v r1 r2 : ℝ) : RiskResult :=
  let p : ℝ :=
    if d ≤ 2 then 100
    else if d ≤ 5 then 80
    else if d ≤ 10 then 50 * (1 - (d - 5) / (10 - 5))
    else 20 * Real.exp (-(d - 10) / 10)
  let lvl : String :=
    if d ≤ 2 then "CRITICAL"
    else if d ≤ 5 then "HIGH"
    else if d ≤ 10 then "MEDIUM"
    else "LOW"
  let vs := min 100 (v * 10)
  let ss := min 100 ((r1 + r2) * 500)
  let rs := 0.6 * p + 0.3 * vs + 0.1 * ss
  { risk_score := max 0 (min 100 (round2 rs))
    threat_level := lvl
    distance_km := d
    relative_velocity := v
    proximity_score := round2 p
    velocity_score := round2 vs
    size_score := round2 ss }

lemma proximity_score_nonneg (d : ℝ) : 0 ≤ proximity_score d := by
  unfold proximity_score critical_threshold collision_threshold warning_threshold
  split_ifs with h1 h2 h3
  · norm_num
  · norm_num
  · have h5 : (5 : ℝ) < d := by linarith [not_le.mp h2]
    have h10 : d ≤ 10 := h3
    have : 50 * (1 - (d - 5) / (10 - 5)) = 100 - 10 * d := by ring
    rw [this]
    linarith
  · have := Real.exp_pos (-(d - 10) / 10)
    linarith

lemma proximity_score_le_100 (d : ℝ) : proximity_score d ≤ 100 := by
  unfold proximity_score critical_threshold collision_threshold warning_threshold
  split_ifs with h1 h2 h3
  · norm_num
  · norm_num
  · have h5 : (5 : ℝ) < d := by linarith [not_le.mp h2]
    have : 50 * (1 - (d - 5) / (10 - 5)) = 100 - 10 * d := by ring
    rw [this]
    linarith
  · have h10 : (10 : ℝ) < d := by linarith [not_le.mp h3]
    have hexp : Real.exp (-(d - 10) / 10) ≤ Real.exp 0 :=
      Real.exp_le_exp.mpr (by linarith)
    rw [Real.exp_zero] at hexp
    linarith

lemma min_score_bounds {a : ℝ} (h : 0 ≤ a) : 0 ≤ min 100 a ∧ min 100 a ≤ 100 :=
  ⟨le_min (by norm_num) h, min_le_left _ _⟩

lemma proximity_score_eq_spec (d : ℝ) :
    (if d ≤ 2 then (100 : ℝ)
     else if d ≤ 5 then 80
     else if d ≤ 10 then 50 * (1 - (d - 5) / (10 - 5))
     else 20 * Real.exp (-(d - 10) / 10)) = proximity_score d := by
  unfold proximity_score critical_threshold collision_threshold warning_threshold
  rfl

lemma threat_level_eq_spec (d : ℝ) :
    (if d ≤ 2 then "CRITICAL"
     else if d ≤ 5 then "HIGH"
     else if d ≤ 10 then "MEDIUM"
     else "LOW") = threat_level d := by
  unfold threat_level critical_threshold collision_threshold warning_threshold
  rfl

/-- Claim C1 (amended): for non-negative inputs, calculate_collision_risk
returns exactly the piecewise result worded by the spec: proximity 100 and
CRITICAL for distance at most 2, proximity 80 and HIGH up to 5, the linear
ramp and MEDIUM up to 10, the exponential tail and LOW beyond 10, with
velocity and size scores capped at 100 and the weighted risk score rounded
to two decimals; on these inputs the clamp to the interval from 0 to 100
required by the spec is the identity, so the unclamped value the code
returns coincides with the clamped value the spec words describe. -/
theorem collision_risk_code_matches_spec_on_nonneg (d v r1 r2 : ℝ)
    (_hd : 0 ≤ d) (hv : 0 ≤ v) (hr1 : 0 ≤ r1) (hr2 : 0 ≤ r2) :
    calculate_collision_risk d v r1 r2 = spec_collision_risk d v r1 r2 := by
  have hp0 := proximity_score_nonneg d
  have hp1 := proximity_score_le_100 d
  have hvs := min_score_bounds (show (0 : ℝ) ≤ v * 10 by linarith)
  have hss := min_score_bounds
    (show (0 : ℝ) ≤ (r1 + r2) * 500 from
      mul_nonneg (by linarith) (by norm_num))
  simp only [calculate_collision_risk, spec_collision_risk, RiskResult.mk.injEq]
  rw [proximity_score_eq_spec, threat_level_eq_spec]
  refine ⟨?_, rfl, trivial, trivial, rfl, trivial, trivial⟩
  have hring :
      0.6 * proximity_score d + 0.3 * min 100 (v * 10) + 0.1 * min 100 ((r1 + r2) * 500)
        = proximity_score d * 0.6 + min 100 (v * 10) * 0.3 + min 100 ((r1 + r2) * 500) * 0.1 := by
    ring
  rw [hring]
  have hb0 : 0 ≤ proximity_score d * 0.6 + min 100 (v * 10) * 0.3
      + min 100 ((r1 + r2) * 500) * 0.1 := by
    linarith [hvs.1, hss.1]
  have hb1 : proximity_score d * 0.6 + min 100 (v * 10) * 0.3
      + min 100 ((r1 + r2) * 500) * 0.1 ≤ 100 := by
    linarith [hvs.2, hss.2]
  rw [min_eq_right (round2_le_100 hb1), max_eq_right (round2_nonneg hb0)]

/-- Claim C1 counterexample: at distance 16/3 km the returned
proximity_score is the two-decimal rounding 46.67 of the exact ramp value
140/3, and at relative velocity -1000 the returned risk_score is -2972,
which is negative, so the result is not clamped to the interval from 0 to
100 as the claim states for every input. -/
theorem collision_risk_spec_clamp_round_mismatch :
    (calculate_collision_risk (16 / 3) (-1000) 0 0).proximity_score
        ≠ 50 * (1 - ((16 / 3 : ℝ) - 5) / (10 - 5)) ∧
      (calculate_collision_risk (16 / 3) (-1000) 0 0).risk_score < 0 := by
  constructor
  · norm_num [calculate_collision_risk, proximity_score, critical_threshold,
      collision_threshold, warning_threshold, round2, round_eq, min_def]
  · norm_num [calculate_collision_risk, proximity_score, critical_threshold,
      collision_threshold, warning_threshold, round2, round_eq, min_def]

/-- Witness for claim C1 at the concrete input (3, 1, 0, 0). -/
theorem collision_risk_code_matches_spec_witness :
    (0 : ℝ) ≤ 3 ∧ (0 : ℝ) ≤ 1 ∧ (0 : ℝ) ≤ 0 ∧
      calculate_collision_risk 3 1 0 0 = spec_collision_risk 3 1 0 0 :=
  ⟨by norm_num, by norm_num, le_refl 0,
    collision_risk_code_matches_spec_on_nonneg 3 1 0 0 (by norm_num) (by norm_num)
      (le_refl 0) (le_refl 0)⟩

lemma proximity_score_anti {d1 d2 : ℝ} (h12 : d1 ≤ d2) (hband : d2 ≤ 10 ∨ 10 < d1) :
    proximity_score d2 ≤ proximity_score d1 := by
  have hexp : 20 * Real.exp (-(d2 - 10) / 10) ≤ 20 * Real.exp (-(d1 - 10) / 10) := by
    have := Real.exp_le_exp.mpr (show -(d2 - 10) / 10 ≤ -(d1 - 10) / 10 by linarith)
    linarith
  unfold proximity_score critical_threshold collision_threshold warning_threshold
  rcases hband with hb | hb <;> split_ifs <;> linarith

/-- Claim C2 (amended): for fixed velocity and size inputs the risk score
is non-increasing in distance on the region of distances at most 10 km
(covering the band boundaries at 2 and 5 km) and separately on the region
of distances above 10 km; across the 10 km boundary itself the code is not
monotone, because the MEDIUM ramp reaches 0 at exactly 10 km while the LOW
exponential tail restarts near 20 just above it. -/
theorem risk_score_nonincreasing_within_bands (v r1 r2 d1 d2 : ℝ)
    (h12 : d1 ≤ d2) (hband : d2 ≤ 10 ∨ 10 < d1) :
    (calculate_collision_risk d2 v r1 r2).risk_score
      ≤ (calculate_collision_risk d1 v r1 r2).risk_score := by
  have hp := proximity_score_anti h12 hband
  simp only [calculate_collision_risk]
  apply round2_mono
  linarith

/-- Claim C2 counterexample: with velocity 0 and both cross sections 0,
the risk score at distance 10 km is 0 but at distance 11 km it is at least
10.8, so the risk score is not non-increasing across the transition from
distance 10 to a larger distance. -/
theorem risk_score_increases_across_10km :
    (10 : ℝ) ≤ 11 ∧
      (calculate_collision_risk 10 0 0 0).risk_score
        < (calculate_collision_risk 11 0 0 0).risk_score := by
  refine ⟨by norm_num, ?_⟩
  have h10 : (calculate_collision_risk 10 0 0 0).risk_score = 0 := by
    simp only [calculate_collision_risk]
    have hp : proximity_score 10 = 0 := by
      unfold proximity_score critical_threshold collision_threshold warning_threshold
      norm_num
    rw [hp]
    norm_num [min_def, round2, round_eq]
  have hp11 : proximity_score 11 = 20 * Real.exp (-((11 : ℝ) - 10) / 10) := by
    unfold proximity_score critical_threshold collision_threshold warning_threshold
    rw [if_neg (by norm_num), if_neg (by norm_num), if_neg (by norm_num)]
  have h11 : (calculate_collision_risk 11 0 0 0).risk_score
      = round2 (20 * Real.exp (-((11 : ℝ) - 10) / 10) * 0.6) := by
    simp only [calculate_collision_risk]
    rw [hp11]
    have hm1 : min (100 : ℝ) ((0 : ℝ) * 10) = 0 := by norm_num [min_def]
    have hm2 : min (100 : ℝ) (((0 : ℝ) + 0) * 500) = 0 := by norm_num [min_def]
    rw [hm1, hm2]
    ring_nf
  have hlow : (10.8 : ℝ) ≤ 20 * Real.exp (-((11 : ℝ) - 10) / 10) * 0.6 := by
    have := Real.add_one_le_exp (-((11 : ℝ) - 10) / 10)
    nlinarith
  have hstep : round2 (10.8 : ℝ) ≤ round2 (20 * Real.exp (-((11 : ℝ) - 10) / 10) * 0.6) :=
    round2_mono hlow
  have hr : round2 (10.8 : ℝ) = 10.8 := by norm_num [round2, round_eq]
  rw [h10, h11]
  linarith

/-- Witness for claim C2 at the concrete distances 3 and 7 km. -/
theorem risk_score_nonincreasing_witness :
    (3 : ℝ) ≤ 7 ∧ ((7 : ℝ) ≤ 10 ∨ (10 : ℝ) < 3) ∧
      (calculate_collision_risk 7 0 0 0).risk_score
        ≤ (calculate_collision_risk 3 0 0 0).risk_score :=
  ⟨by norm_num, Or.inl (by norm_num),
    risk_score_nonincreasing_within_bands 0 0 0 3 7 (by norm_num) (Or.inl (by norm_num))⟩

/- ======================================================================
RiskAssessment.assess_space_weather_impact (risk_assessment.py lines
58-109). A weather snapshot is a list of rows; the code answers from the
last row. The columns read through latest.get are modelled as always
present (the mock feeds supply them); the factors list, the formatted
message text and the timestamp are not modelled. The two different dict
shapes the method returns are modelled by one structure with Option
fields: the empty-snapshot branch populates the keys impact and score,
the non-empty branch populates impact_level and impact_score.
====================================================================== -/

structure WeatherRow where
  solar_flare_class : String
  kp_index : ℝ
  solar_wind_speed_km_s : ℝ
  atmospheric_density : ℝ

/-- Lookup in the flare_scores dict with default 10
(risk_assessment.py lines 72-73). -/
def flare_scores (c : String) : ℝ :=
  if c = "A" then 10
  else if c = "B" then 25
  else if c = "C" then 50
  else if c = "M" then 75
  else if c = "X" then 100
  else 10

structure WeatherAssessment where
  impact : Option String
  score : Option ℝ
  impact_level : Option String
  impact_score : Option ℝ

/-- Embedding of RiskAssessment.assess_space_weather_impact
(risk_assessment.py lines 58-109). -/
noncomputable def assess_space_weather_impact (weather_data : List WeatherRow) :
    WeatherAssessment :=
  match weather_data.getLast? with
  | none =>
    { impact := some ("UNKNOWN"), score := some 0, impact_level := none, impact_score := none }
  | some latest =>
    let flare_impact := flare_scores latest.solar_flare_class
    let kp_impact := min 100 (latest.kp_index * 11)
    let wind_impact := max 0 (min 100 ((latest.solar_wind_speed_km_s - 300) / 5))
    let density_impact := min 100 (latest.atmospheric_density * 1e11)
    let impact_score :=
      flare_impact * 0.4 + kp_impact * 0.3 + wind_impact * 0.2 + density_impact * 0.1
    let impact_level :=
      if impact_score ≥ 75 then "SEVERE"
      else if impact_score ≥ 50 then "HIGH"
      else if impact_score ≥ 25 then "MODERATE"
      else "LOW"
    { impact := none, score := none,
      impact_level := some impact_level, impact_score := some (round2 impact_score) }

/-- Claim C7: on an empty weather snapshot, assess_space_weather_impact
returns exactly the dict with impact UNKNOWN and score 0 (and no other
keys), and does not fail. -/
theorem assess_empty_snapshot_unknown_zero :
    assess_space_weather_impact [] =
      { impact := some ("UNKNOWN"), score := some 0,
        impact_level := none, impact_score := none } := rfl

lemma flare_scores_bounds (c : String) : 10 ≤ flare_scores c ∧ flare_scores c ≤ 100 := by
  unfold flare_scores
  split_ifs <;> norm_num

lemma impact_score_bounds {latest : WeatherRow}
    (hkp : 0 ≤ latest.kp_index) (hden : 0 ≤ latest.atmospheric_density) :
    0 ≤ flare_scores latest.solar_flare_class * 0.4
        + min 100 (latest.kp_index * 11) * 0.3
        + max 0 (min 100 ((latest.solar_wind_speed_km_s - 300) / 5)) * 0.2
        + min 100 (latest.atmospheric_density * 1e11) * 0.1 ∧
      flare_scores latest.solar_flare_class * 0.4
        + min 100 (latest.kp_index * 11) * 0.3
        + max 0 (min 100 ((latest.solar_wind_speed_km_s - 300) / 5)) * 0.2
        + min 100 (latest.atmospheric_density * 1e11) * 0.1 ≤ 100 := by
  have hf := flare_scores_bounds latest.solar_flare_class
  have hkpb := min_score_bounds (show (0 : ℝ) ≤ latest.kp_index * 11 from
    mul_nonneg hkp (by norm_num))
  have hwind0 : (0 : ℝ) ≤ max 0 (min 100 ((latest.solar_wind_speed_km_s - 300) / 5)) :=
    le_max_left 0 _
  have hwind1 : max 0 (min 100 ((latest.solar_wind_speed_km_s - 300) / 5)) ≤ 100 :=
    max_le (by norm_num) (min_le_left _ _)
  have hdenb := min_score_bounds (show (0 : ℝ) ≤ latest.atmospheric_density * 1e11 from
    mul_nonneg hden (by norm_num))
  constructor
  · linarith [hf.1, hkpb.1, hdenb.1]
  · linarith [hf.2, hkpb.2, hdenb.2]

/-- Claim C3: for non-negative inputs every score produced by the core
lies in the closed interval from 0 to 100: the risk_score,
proximity_score, velocity_score and size_score returned by
calculate_collision_risk, and the impact_score returned by
assess_space_weather_impact on a snapshot whose rows carry non-negative
kp index and density. -/
theorem produced_scores_lie_in_0_100 (d v r1 r2 : ℝ)
    (_hd : 0 ≤ d) (hv : 0 ≤ v) (hr1 : 0 ≤ r1) (hr2 : 0 ≤ r2)
    (ws : List WeatherRow)
    (hws : ∀ w ∈ ws, 0 ≤ w.kp_index ∧ 0 ≤ w.atmospheric_density) :
    (0 ≤ (calculate_collision_risk d v r1 r2).risk_score ∧
        (calculate_collision_risk d v r1 r2).risk_score ≤ 100) ∧
      (0 ≤ (calculate_collision_risk d v r1 r2).proximity_score ∧
        (calculate_collision_risk d v r1 r2).proximity_score ≤ 100) ∧
      (0 ≤ (calculate_collision_risk d v r1 r2).velocity_score ∧
        (calculate_collision_risk d v r1 r2).velocity_score ≤ 100) ∧
      (0 ≤ (calculate_collision_risk d v r1 r2).size_score ∧
        (calculate_collision_risk d v r1 r2).size_score ≤ 100) ∧
      ∀ s : ℝ, (assess_space_weather_impact ws).impact_score = some s →
        0 ≤ s ∧ s ≤ 100 := by
  have hp0 := proximity_score_nonneg d
  have hp1 := proximity_score_le_100 d
  have hvs := min_score_bounds (show (0 : ℝ) ≤ v * 10 by linarith)
  have hss := min_score_bounds (show (0 : ℝ) ≤ (r1 + r2) * 500 from
    mul_nonneg (by linarith) (by norm_num))
  simp only [calculate_collision_risk]
  refine ⟨⟨round2_nonneg (by linarith [hvs.1, hss.1]), round2_le_100 (by linarith [hvs.2, hss.2])⟩,
    ⟨round2_nonneg hp0, round2_le_100 hp1⟩,
    ⟨round2_nonneg hvs.1, round2_le_100 hvs.2⟩,
    ⟨round2_nonneg hss.1, round2_le_100 hss.2⟩, ?_⟩
  intro s hs
  cases hlast : ws.getLast? with
  | none =>
    rw [assess_space_weather_impact, hlast] at hs
    exact absurd hs (by simp)
  | some latest =>
    have hmem := List.mem_of_mem_getLast? hlast
    obtain ⟨hkp, hden⟩ := hws latest hmem
    rw [assess_space_weather_impact, hlast] at hs
    simp only [Option.some.injEq] at hs
    have hb := impact_score_bounds hkp hden
    exact hs ▸ ⟨round2_nonneg hb.1, round2_le_100 hb.2⟩

/-- Witness for claim C3 at the concrete inputs (1, 1000, 1000, 1000) and
a single weather row with an X-class flare, kp 9, wind 800 and density 0. -/
theorem produced_scores_lie_in_0_100_witness :
    (0 : ℝ) ≤ 1 ∧ (0 : ℝ) ≤ 1000 ∧
      (∀ w ∈ [(⟨"X", 9, 800, 0⟩ : WeatherRow)], 0 ≤ w.kp_index ∧ 0 ≤ w.atmospheric_density) ∧
      (0 ≤ (calculate_collision_risk 1 1000 1000 1000).risk_score ∧
          (calculate_collision_risk 1 1000 1000 1000).risk_score ≤ 100) ∧
        (0 ≤ (calculate_collision_risk 1 1000 1000 1000).proximity_score ∧
          (calculate_collision_risk 1 1000 1000 1000).proximity_score ≤ 100) ∧
        (0 ≤ (calculate_collision_risk 1 1000 1000 1000).velocity_score ∧
          (calculate_collision_risk 1 1000 1000 1000).velocity_score ≤ 100) ∧
        (0 ≤ (calculate_collision_risk 1 1000 1000 1000).size_score ∧
          (calculate_collision_risk 1 1000 1000 1000).size_score ≤ 100) ∧
        ∀ s : ℝ,
          (assess_space_weather_impact [(⟨"X", 9, 800, 0⟩ : WeatherRow)]).impact_score = some s →
            0 ≤ s ∧ s ≤ 100 :=
  ⟨by norm_num, by norm_num,
    by
      intro w hw
      rw [List.mem_singleton] at hw
      subst hw
      exact ⟨by norm_num, le_refl 0⟩,
    produced_scores_lie_in_0_100 1 1000 1000 1000 (by norm_num) (by norm_num)
      (by norm_num) (by norm_num) [(⟨"X", 9, 800, 0⟩ : WeatherRow)]
      (by
        intro w hw
        rw [List.mem_singleton] at hw
        subst hw
        exact ⟨by norm_num, le_refl 0⟩)⟩

/- ======================================================================
Alert dicts and RiskAssessment.calculate_mission_impact
(risk_assessment.py lines 186-265). A satellite row of the merged
catalog dataframe is modelled with the columns the risk module reads;
the columns are modelled as always present (the merged mock catalog
supplies them). Alerts carry type, severity and risk_score; the message
text and timestamp are not modelled.
====================================================================== -/

structure Sat where
  satellite_name : String
  norad_id : ℕ
  radar_range_km : ℝ
  radar_velocity_km_s : ℝ
  radar_cross_section_m2 : ℝ

structure Alert where
  type : String
  severity : String
  risk_score : ℝ

structure MissionImpact where
  overall_status : String
  total_satellites : ℕ
  high_risk_count : ℕ
  medium_risk_count : ℕ
  average_risk_score : ℝ
  recommendation : String

/-- Count of alerts with severity HIGH or CRITICAL
(risk_assessment.py line 238). -/
def high_risk_count (alerts : List Alert) : ℕ :=
  (alerts.filter fun a => decide (a.severity = "HIGH" ∨ a.severity = "CRITICAL")).length

/-- Count of alerts with severity MEDIUM (risk_assessment.py line 239). -/
def medium_risk_count (alerts : List Alert) : ℕ :=
  (alerts.filter fun a => decide (a.severity = "MEDIUM")).length

/-- Mean risk score over the alerts, 0 for an empty list
(risk_assessment.py line 242). -/
noncomputable def average_risk_score (alerts : List Alert) : ℝ :=
  if alerts.isEmpty then 0 else (alerts.map Alert.risk_score).sum / alerts.length

/-- Status component of the if/elif chain of calculate_mission_impact
(risk_assessment.py lines 244-255). -/
noncomputable def overall_status (alerts : List Alert) : String :=
  if 75 ≤ average_risk_score alerts ∨ 3 < high_risk_count alerts then "CRITICAL"
  else if 50 ≤ average_risk_score alerts ∨ 0 < high_risk_count alerts then "ELEVATED"
  else if 25 ≤ average_risk_score alerts then "MODERATE"
  else "NORMAL"

/-- Recommendation component of the same if/elif chain
(risk_assessment.py lines 244-255). -/
noncomputable def recommendation (alerts : List Alert) : String :=
  if 75 ≤ average_risk_score alerts ∨ 3 < high_risk_count alerts then
    "Immediate action required. Review all high-risk conjunctions."
  else if 50 ≤ average_risk_score alerts ∨ 0 < high_risk_count alerts then
    "Monitor closely. Prepare contingency plans."
  else if 25 ≤ average_risk_score alerts then
    "Routine monitoring. No immediate action required."
  else "All systems nominal. Continue standard operations."

/-- Embedding of RiskAssessment.calculate_mission_impact
(risk_assessment.py lines 233-265). -/
noncomputable def calculate_mission_impact (alerts : List Alert) (satellites_data : List Sat) :
    MissionImpact :=
  { overall_status := overall_status alerts
    total_satellites := satellites_data.length
    high_risk_count := high_risk_count alerts
    medium_risk_count := medium_risk_count alerts
    average_risk_score := round2 (average_risk_score alerts)
    recommendation := recommendation alerts }

@[simp] lemma average_risk_score_nil : average_risk_score [] = 0 := by
  simp [average_risk_score]

@[simp] lemma high_risk_count_nil : high_risk_count [] = 0 := rfl

/-- Claim C8: the mission impact status is CRITICAL exactly when the mean
alert risk score is at least 75 or more than 3 alerts are high risk, else
ELEVATED exactly when the mean is at least 50 or any alert is high risk,
else MODERATE exactly when the mean is at least 25, else NORMAL; on an
empty alert list the status is NORMAL and the reported average score is 0. -/
theorem mission_impact_status_thresholds (alerts : List Alert) (sats : List Sat) :
    (((calculate_mission_impact alerts sats).overall_status = "CRITICAL" ↔
        75 ≤ average_risk_score alerts ∨ 3 < high_risk_count alerts) ∧
      ((calculate_mission_impact alerts sats).overall_status = "ELEVATED" ↔
        ¬(75 ≤ average_risk_score alerts ∨ 3 < high_risk_count alerts) ∧
          (50 ≤ average_risk_score alerts ∨ 0 < high_risk_count alerts)) ∧
      ((calculate_mission_impact alerts sats).overall_status = "MODERATE" ↔
        ¬(75 ≤ average_risk_score alerts ∨ 3 < high_risk_count alerts) ∧
          ¬(50 ≤ average_risk_score alerts ∨ 0 < high_risk_count alerts) ∧
          25 ≤ average_risk_score alerts) ∧
      ((calculate_mission_impact alerts sats).overall_status = "NORMAL" ↔
        ¬(75 ≤ average_risk_score alerts ∨ 3 < high_risk_count alerts) ∧
          ¬(50 ≤ average_risk_score alerts ∨ 0 < high_risk_count alerts) ∧
          ¬25 ≤ average_risk_score alerts)) ∧
      (alerts = [] →
        (calculate_mission_impact alerts sats).overall_status = "NORMAL" ∧
          (calculate_mission_impact alerts sats).average_risk_score = 0) := by
  constructor
  · simp only [calculate_mission_impact, overall_status]
    split_ifs with h1 h2 h3
    · exact ⟨iff_of_true rfl h1,
        iff_of_false (by simp) (fun hc => hc.1 h1),
        iff_of_false (by simp) (fun hc => hc.1 h1),
        iff_of_false (by simp) (fun hc => hc.1 h1)⟩
    · exact ⟨iff_of_false (by simp) h1,
        iff_of_true rfl ⟨h1, h2⟩,
        iff_of_false (by simp) (fun hc => hc.2.1 h2),
        iff_of_false (by simp) (fun hc => hc.2.1 h2)⟩
    · exact ⟨iff_of_false (by simp) h1,
        iff_of_false (by simp) (fun hc => h2 hc.2),
        iff_of_true rfl ⟨h1, h2, h3⟩,
        iff_of_false (by simp) (fun hc => hc.2.2 h3)⟩
    · exact ⟨iff_of_false (by simp) h1,
        iff_of_false (by simp) (fun hc => h2 hc.2),
        iff_of_false (by simp) (fun hc => h3 hc.2.2),
        iff_of_true rfl ⟨h1, h2, h3⟩⟩
  · intro h
    subst h
    constructor
    · simp only [calculate_mission_impact, overall_status, average_risk_score_nil,
        high_risk_count_nil]
      rw [if_neg (by norm_num), if_neg (by norm_num), if_neg (by norm_num)]
    · simp only [calculate_mission_impact, average_risk_score_nil]
      exact round2_zero

/-- Witness for claim C8 at the empty alert list and empty catalog. -/
theorem mission_impact_status_witness :
    ([] : List Alert) = [] ∧
      (calculate_mission_impact [] []).overall_status = "NORMAL" ∧
        (calculate_mission_impact [] []).average_risk_score = 0 :=
  ⟨rfl, (mission_impact_status_thresholds [] []).2 rfl⟩

/- ======================================================================
RiskAssessment.calculate_conjunction_events, classify_debris_risk and
generate_alerts (risk_assessment.py lines 111-231). The pairwise loop
over dataframe rows is modelled by sat_pairs, which produces exactly the
ordered pairs (i, j) with i < j in row order. The radar columns are
modelled as always present, so the presence guard of line 125 always
holds. Sorting descending by risk score models list.sort with
reverse=True.
====================================================================== -/

structure ConjunctionEvent where
  satellite_1 : String
  satellite_2 : String
  norad_1 : ℕ
  norad_2 : ℕ
  distance_km : ℝ
  relative_velocity : ℝ
  risk_score : ℝ
  threat_level : String

/-- Row pairs (i, j) with i < j, in the order of the nested loops of
calculate_conjunction_events (risk_assessment.py lines 119-122). -/
def sat_pairs : List Sat → List (Sat × Sat)
  | [] => []
  | s :: rest => (rest.map fun t => (s, t)) ++ sat_pairs rest

/-- Embedding of RiskAssessment.calculate_conjunction_events
(risk_assessment.py lines 111-155); the default threshold is 10 km,
passed explicitly by callers here. -/
noncomputable def calculate_conjunction_events (satellites_data : List Sat)
    (threshold_km : ℝ) : List ConjunctionEvent :=
  let conjunctions := (sat_pairs satellites_data).filterMap fun st =>
    let distance := |st.1.radar_range_km - st.2.radar_range_km|
    if distance < threshold_km then
      let rel_velocity := |st.1.radar_velocity_km_s - st.2.radar_velocity_km_s|
      let risk := calculate_collision_risk distance rel_velocity
        st.1.radar_cross_section_m2 st.2.radar_cross_section_m2
      some { satellite_1 := st.1.satellite_name
             satellite_2 := st.2.satellite_name
             norad_1 := st.1.norad_id
             norad_2 := st.2.norad_id
             distance_km := distance
             relative_velocity := rel_velocity
             risk_score := risk.risk_score
             threat_level := risk.threat_level }
    else none
  conjunctions.mergeSort fun a b => decide (b.risk_score ≤ a.risk_score)

/-- Embedding of RiskAssessment.classify_debris_risk
(risk_assessment.py lines 157-184). -/
noncomputable def classify_debris_risk (object_data : Sat) : String :=
  let rcs := object_data.radar_cross_section_m2
  let altitude := object_data.radar_range_km
  let velocity := object_data.radar_velocity_km_s
  let risk_factors : ℕ :=
    (if rcs < 0.02 then 2 else 0)
      + (if (400 ≤ altitude ∧ altitude ≤ 600) ∨ (800 ≤ altitude ∧ altitude ≤ 1000)
          then 2 else 0)
      + (if 7.8 < velocity then 1 else 0)
  if 4 ≤ risk_factors then "HIGH DEBRIS RISK"
  else if 2 ≤ risk_factors then "MODERATE DEBRIS RISK"
  else "LOW DEBRIS RISK"

/-- Model of the Python substring test needle in hay, for a character
needle matched anywhere in hay. -/
def prefix_match : List Char → List Char → Bool
  | [], _ => true
  | _ :: _, [] => false
  | c :: cs, h :: hs => c == h && prefix_match cs hs

/-- Model of the Python expression needle in hay on strings. -/
def py_substring (needle : List Char) : List Char → Bool
  | [] => needle.isEmpty
  | h :: hs => prefix_match needle (h :: hs) || py_substring needle hs

def py_in_str (needle hay : String) : Bool := py_substring needle.toList hay.toList

/-- CONJUNCTION alerts built from the top 5 conjunctions that pass the
risk-score filter (risk_assessment.py lines 193-203). -/
noncomputable def conjunction_alerts (satellites_data : List Sat) : List Alert :=
  (((calculate_conjunction_events satellites_data 10).take 5).filter
      fun c => decide (50 < c.risk_score)).map
    fun c => { type := "CONJUNCTION", severity := c.threat_level, risk_score := c.risk_score }

/-- DEBRIS alerts for objects whose classification contains HIGH
(risk_assessment.py lines 216-226). -/
noncomputable def debris_alerts (satellites_data : List Sat) : List Alert :=
  (satellites_data.filter fun sat => py_in_str ("HIGH") (classify_debris_risk sat)).map
    fun _sat => { type := "DEBRIS", severity := "HIGH", risk_score := 70 }

/-- Final sort descending by risk score and truncation to the top 10
(risk_assessment.py lines 228-231). -/
noncomputable def finalize_alerts (alerts : List Alert) : List Alert :=
  (alerts.mergeSort fun a b => decide (b.risk_score ≤ a.risk_score)).take 10

/-- Embedding of RiskAssessment.generate_alerts (risk_assessment.py
lines 186-231). The subscript lookups on the weather-impact dict are
modelled by matches on the Option fields; on an empty weather snapshot
the dict returned by assess_space_weather_impact has no impact_score
key, so the lookup at line 207 is a KeyError, modelled as Except.error. -/
noncomputable def generate_alerts (satellites_data : List Sat)
    (space_weather : List WeatherRow) : Except String (List Alert) :=
  match (assess_space_weather_impact space_weather).impact_score with
  | none => Except.error ("KeyError: impact_score")
  | some s =>
    if 50 < s then
      match (assess_space_weather_impact space_weather).impact_level with
      | none => Except.error ("KeyError: impact_level")
      | some lvl =>
        Except.ok (finalize_alerts (conjunction_alerts satellites_data
          ++ [{ type := "SPACE WEATHER", severity := lvl, risk_score := s }]
          ++ debris_alerts satellites_data))
    else
      Except.ok (finalize_alerts (conjunction_alerts satellites_data
        ++ [] ++ debris_alerts satellites_data))

lemma conjunction_alerts_length_le (sats : List Sat) :
    (conjunction_alerts sats).length ≤ 5 := by
  unfold conjunction_alerts
  rw [List.length_map]
  exact le_trans (List.length_filter_le _ _) (List.length_take_le _ _)

lemma conjunction_alerts_mem {sats : List Sat} {a : Alert}
    (ha : a ∈ conjunction_alerts sats) : a.type = "CONJUNCTION" ∧ 50 < a.risk_score := by
  unfold conjunction_alerts at ha
  obtain ⟨c, hc, rfl⟩ := List.mem_map.mp ha
  refine ⟨rfl, ?_⟩
  have := List.of_mem_filter hc
  simpa using this

lemma debris_alerts_mem {sats : List Sat} {a : Alert}
    (ha : a ∈ debris_alerts sats) : a.type = "DEBRIS" := by
  unfold debris_alerts at ha
  obtain ⟨sat, _, rfl⟩ := List.mem_map.mp ha
  rfl

lemma finalize_alerts_length_le (alerts : List Alert) :
    (finalize_alerts alerts).length ≤ 10 :=
  List.length_take_le _ _

lemma finalize_alerts_subset {alerts : List Alert} {a : Alert}
    (ha : a ∈ finalize_alerts alerts) : a ∈ alerts :=
  ((List.mergeSort_perm alerts _).mem_iff).mp (List.mem_of_mem_take ha)

lemma finalize_alerts_countP_le (p : Alert → Bool) (alerts : List Alert) :
    (finalize_alerts alerts).countP p ≤ alerts.countP p :=
  le_trans ((List.take_sublist _ _).countP_le p)
    (le_of_eq ((List.mergeSort_perm alerts _).countP_eq p))

lemma countP_conjunction_bound (sats : List Sat) (rest : List Alert)
    (hrest : ∀ a ∈ rest, a.type ≠ "CONJUNCTION") :
    (conjunction_alerts sats ++ rest).countP (fun a => decide (a.type = "CONJUNCTION")) ≤ 5 := by
  rw [List.countP_append]
  have h1 : (conjunction_alerts sats).countP (fun a => decide (a.type = "CONJUNCTION"))
      ≤ (conjunction_alerts sats).length := List.countP_le_length _
  have h2 : rest.countP (fun a => decide (a.type = "CONJUNCTION")) = 0 := by
    rw [List.countP_eq_zero]
    intro a ha
    simpa using hrest a ha
  have := conjunction_alerts_length_le sats
  omega

/-- Claim C6: whenever generate_alerts returns an alert list, that list
has length at most 10, contains at most 5 CONJUNCTION alerts, every
CONJUNCTION alert in it has risk score above 50, and a SPACE WEATHER
alert appears only when the assessed impact score is above 50. -/
theorem generate_alerts_caps (sats : List Sat) (ws : List WeatherRow) (A : List Alert)
    (h : generate_alerts sats ws = Except.ok A) :
    A.length ≤ 10 ∧
      (A.filter fun a => decide (a.type = "CONJUNCTION")).length ≤ 5 ∧
      (∀ a ∈ A, a.type = "CONJUNCTION" → 50 < a.risk_score) ∧
      (∀ a ∈ A, a.type = "SPACE WEATHER" →
        ∃ s, (assess_space_weather_impact ws).impact_score = some s ∧ 50 < s) := by
  unfold generate_alerts at h
  cases hscore : (assess_space_weather_impact ws).impact_score with
  | none =>
    rw [hscore] at h
    exact absurd h (by simp)
  | some s =>
    rw [hscore] at h
    simp only at h
    by_cases hcond : 50 < s
    · rw [if_pos hcond] at h
      cases hlvl : (assess_space_weather_impact ws).impact_level with
      | none =>
        rw [hlvl] at h
        exact absurd h (by simp)
      | some lvl =>
        rw [hlvl] at h
        simp only [Except.ok.injEq] at h
        subst h
        refine ⟨finalize_alerts_length_le _, ?_, ?_, ?_⟩
        · rw [← List.countP_eq_length_filter]
          refine le_trans (finalize_alerts_countP_le _ _) ?_
          rw [List.append_assoc]
          refine countP_conjunction_bound sats _ ?_
          intro a ha
          rcases List.mem_append.mp ha with hw | hd
          · rw [List.mem_singleton] at hw
            subst hw
            simp
          · rw [debris_alerts_mem hd]
            simp
        · intro a ha htype
          have hmem := finalize_alerts_subset ha
          rcases List.mem_append.mp hmem with hcw | hd
          · rcases List.mem_append.mp hcw with hc | hw
            · exact (conjunction_alerts_mem hc).2
            · rw [List.mem_singleton] at hw
              subst hw
              simp at htype
          · rw [debris_alerts_mem hd] at htype
            simp at htype
        · intro a ha _
          exact ⟨s, rfl, hcond⟩
    · rw [if_neg hcond] at h
      simp only [Except.ok.injEq] at h
      subst h
      refine ⟨finalize_alerts_length_le _, ?_, ?_, ?_⟩
      · rw [← List.countP_eq_length_filter]
        refine le_trans (finalize_alerts_countP_le _ _) ?_
        rw [List.append_assoc]
        refine countP_conjunction_bound sats _ ?_
        intro a ha
        rcases List.mem_append.mp ha with hw | hd
        · exact absurd hw (List.not_mem_nil a)
        · rw [debris_alerts_mem hd]
          simp
      · intro a ha htype
        have hmem := finalize_alerts_subset ha
        rcases List.mem_append.mp hmem with hcw | hd
        · rcases List.mem_append.mp hcw with hc | hw
          · exact (conjunction_alerts_mem hc).2
          · exact absurd hw (List.not_mem_nil a)
        · rw [debris_alerts_mem hd] at htype
          simp at htype
      · intro a ha htype
        have hmem := finalize_alerts_subset ha
        rcases List.mem_append.mp hmem with hcw | hd
        · rcases List.mem_append.mp hcw with hc | hw
          · rw [(conjunction_alerts_mem hc).1] at htype
            simp at htype
          · exact absurd hw (List.not_mem_nil a)
        · rw [debris_alerts_mem hd] at htype
          simp at htype

/-- Witness for claim C6 at the empty catalog and a one-row weather
snapshot with an A-class flare, kp 0, wind 300 and density 0, whose
impact score 4 passes no alert filter, so generate_alerts returns the
empty alert list. -/
theorem generate_alerts_caps_witness :
    generate_alerts [] [⟨"A", 0, 300, 0⟩] = Except.ok [] ∧
      ((([] : List Alert)).length ≤ 10 ∧
        (([] : List Alert).filter fun a => decide (a.type = "CONJUNCTION")).length ≤ 5 ∧
        (∀ a ∈ ([] : List Alert), a.type = "CONJUNCTION" → 50 < a.risk_score) ∧
        (∀ a ∈ ([] : List Alert), a.type = "SPACE WEATHER" →
          ∃ s, (assess_space_weather_impact [⟨"A", 0, 300, 0⟩]).impact_score = some s ∧
            50 < s)) := by
  have hassess : (assess_space_weather_impact [⟨"A", 0, 300, 0⟩]).impact_score = some 4 := by
    simp only [assess_space_weather_impact, List.getLast?]
    norm_num [flare_scores, min_def, max_def, round2, round_eq]
  have hok : generate_alerts [] [⟨"A", 0, 300, 0⟩] = Except.ok [] := by
    unfold generate_alerts
    simp only [hassess]
    rw [if_neg (by norm_num : ¬(50 : ℝ) < 4)]
    simp [finalize_alerts, conjunction_alerts, debris_alerts,
      calculate_conjunction_events, sat_pairs]
  exact ⟨hok, generate_alerts_caps [] [⟨"A", 0, 300, 0⟩] [] hok⟩

/-- Claim C10: for a non-empty catalog and an empty weather snapshot,
generate_alerts fails with a key lookup error instead of returning an
alert list: the empty-snapshot result of assess_space_weather_impact
carries the key score, but generate_alerts unconditionally reads the key
impact_score from it. -/
theorem generate_alerts_empty_weather_key_error (sats : List Sat) (_h : sats ≠ []) :
    generate_alerts sats [] = Except.error ("KeyError: impact_score") := rfl

/-- Witness for claim C10 at a one-satellite catalog. -/
theorem generate_alerts_empty_weather_key_error_witness :
    ([⟨"SAT-A", 1, 500, 7.5, 0.05⟩] : List Sat) ≠ [] ∧
      generate_alerts [⟨"SAT-A", 1, 500, 7.5, 0.05⟩] []
        = Except.error ("KeyError: impact_score") :=
  ⟨by simp, generate_alerts_empty_weather_key_error _ (by simp)⟩

/- ======================================================================
DataProcessor.parse_tle_lines (data_processor.py lines 91-113). Element
fields are decimal text, so Python floats parsed from them are modelled
exactly by rationals. py_float models the Python float() builtin on the
decimal forms that occur in element fields (optional sign, digits, an
optional decimal point); any other text makes it fail, as float() does.
The except branch of the source catches that failure, prints, and
returns the empty dict, which is modelled by none; the field values are
modelled as always read from line2 at the fixed columns of the source
(line1 is accepted and ignored, exactly as in the source body).
====================================================================== -/

/-- Model of str.strip for the space padding that occurs in element
fields. -/
def strip_chars (cs : List Char) : List Char :=
  ((cs.dropWhile fun c => c == ' ').reverse.dropWhile fun c => c == ' ').reverse

def strip_str (s : String) : String := (strip_chars s.toList).asString

/-- Model of the Python slice s[a:b]: never raises, short strings give a
short or empty result. -/
def py_slice (s : String) (a b : ℕ) : String := ((s.toList.drop a).take (b - a)).asString

def digits_val (cs : List Char) : ℕ := cs.foldl (fun n c => 10 * n + (c.toNat - 48)) 0

/-- Model of the Python float() builtin on stripped decimal text:
an optional sign, then digits with an optional decimal point; any
malformed remainder (letters, inner spaces, empty text) fails. -/
def py_float (s : String) : Option ℚ :=
  let cs := strip_chars s.toList
  let signed : ℚ × List Char :=
    match cs with
    | '-' :: r => (-1, r)
    | '+' :: r => (1, r)
    | r => (1, r)
  let int_part := signed.2.takeWhile Char.isDigit
  let rest := signed.2.drop int_part.length
  match rest with
  | [] =>
    if int_part.isEmpty then none
    else some (signed.1 * (digits_val int_part : ℚ))
  | '.' :: frac =>
    if frac.all Char.isDigit ∧ (int_part ≠ [] ∨ frac ≠ []) then
      some (signed.1 * ((digits_val int_part : ℚ)
        + (digits_val frac : ℚ) / 10 ^ frac.length))
    else none
  | _ => none

structure TLEParams where
  inclination : ℚ
  raan : ℚ
  eccentricity : ℚ
  arg_perigee : ℚ
  mean_anomaly : ℚ
  mean_motion : ℚ
  period_minutes : ℚ

/-- Embedding of DataProcessor.parse_tle_lines (data_processor.py lines
91-113): fixed-column fields of line2 parsed as floats, eccentricity
with the implicit leading zero and point; the catch-all except branch
returns the empty dict, modelled by none. -/
def parse_tle_lines (_line1 line2 : String) : Option TLEParams :=
  match py_float (strip_str (py_slice line2 8 16)),
      py_float (strip_str (py_slice line2 17 25)),
      py_float ("0." ++ strip_str (py_slice line2 26 33)),
      py_float (strip_str (py_slice line2 34 42)),
      py_float (strip_str (py_slice line2 43 51)),
      py_float (strip_str (py_slice line2 52 63)) with
  | some inclination, some raan, some eccentricity, some arg_perigee,
      some mean_anomaly, some mean_motion =>
    some ⟨inclination, raan, eccentricity, arg_perigee, mean_anomaly, mean_motion,
      if mean_motion > 0 then 1440 / mean_motion else 0⟩
  | _, _, _, _, _, _ => none

/-- Claim C4 evaluation: on a line with a non-numeric inclination field
and on a line too short for the fixed columns, parse_tle_lines returns
the empty record none instead of failing with a ParseError naming the
offending field, while a well-formed element line parses successfully. -/
theorem parse_tle_malformed_returns_empty :
    parse_tle_lines ("1 25544U 98067A   08264.51782528 -.00002182  00000-0 -11606-4 0  2927")
        ("2 00900  AB.CDEF  71.0000 667919 107.000  71.000 8.97609585 75649") = none ∧
      parse_tle_lines ("1 25544U 98067A   08264.51782528 -.00002182  00000-0 -11606-4 0  2927")
        ("2 00900") = none ∧
      (parse_tle_lines ("1 25544U 98067A   08264.51782528 -.00002182  00000-0 -11606-4 0  2927")
        ("2 25544  51.6416 247.4627 0006703 130.5360 325.0288 15.72125391563537")).isSome
        = true := ⟨rfl, rfl, rfl⟩

/- ======================================================================
OrbitEngine (orbit_engine.py). Vectors are modelled as real triples.
====================================================================== -/

def earth_radius : ℝ := 6371.0

/-- Gravitational parameter of Earth (orbit_engine.py line 86). -/
def mu : ℝ := 398600.4418

noncomputable def norm3 (p : ℝ × ℝ × ℝ) : ℝ :=
  Real.sqrt (p.1 ^ 2 + p.2.1 ^ 2 + p.2.2 ^ 2)

noncomputable def cross3 (a b : ℝ × ℝ × ℝ) : ℝ × ℝ × ℝ :=
  (a.2.1 * b.2.2 - a.2.2 * b.2.1,
   a.2.2 * b.1 - a.1 * b.2.2,
   a.1 * b.2.1 - a.2.1 * b.1)

noncomputable def dot3 (a b : ℝ × ℝ × ℝ) : ℝ := a.1 * b.1 + a.2.1 * b.2.1 + a.2.2 * b.2.2

noncomputable def smul3 (c : ℝ) (a : ℝ × ℝ × ℝ) : ℝ × ℝ × ℝ := (c * a.1, c * a.2.1, c * a.2.2)

noncomputable def sub3 (a b : ℝ × ℝ × ℝ) : ℝ × ℝ × ℝ := (a.1 - b.1, a.2.1 - b.2.1, a.2.2 - b.2.2)

noncomputable def div3 (a : ℝ × ℝ × ℝ) (c : ℝ) : ℝ × ℝ × ℝ := (a.1 / c, a.2.1 / c, a.2.2 / c)

/-- Model of math.degrees. -/
noncomputable def degrees (x : ℝ) : ℝ := x * 180 / Real.pi

/-- Embedding of OrbitEngine.propagate_orbit (orbit_engine.py lines
25-40). The external sgp4 library call satellite.sgp4(jd, fr) is
abstracted as its result triple (error code e, position r, velocity v).
The method returns the pair (None, None) whenever the code e is nonzero
(line 34), and likewise prints and returns (None, None) on an exception
(lines 38-40), discarding the error code either way. -/
def propagate_orbit (sgp4_result : ℕ × (ℝ × ℝ × ℝ) × (ℝ × ℝ × ℝ)) :
    Option (ℝ × ℝ × ℝ) × Option (ℝ × ℝ × ℝ) :=
  if sgp4_result.1 ≠ 0 then (none, none)
  else (some sgp4_result.2.1, some sgp4_result.2.2)

/-- Claim C5 evaluation: two distinct nonzero sgp4 error codes (distinct
standard error classes of the model) both make propagate_orbit return
the same generic (None, None) value, so no PropagationError code is
distinguishable at the caller, while a successful call returns the
state. -/
theorem propagate_orbit_collapses_error_codes :
    propagate_orbit (1, (0, 0, 0), (0, 0, 0)) = (none, none) ∧
      propagate_orbit (2, (0, 0, 0), (0, 0, 0)) = (none, none) ∧
      propagate_orbit (1, (0, 0, 0), (0, 0, 0))
        = propagate_orbit (2, (0, 0, 0), (0, 0, 0)) ∧
      propagate_orbit (0, (7000, 0, 0), (0, 7.5, 0))
        = (some (7000, 0, 0), some (0, 7.5, 0)) :=
  ⟨rfl, rfl, rfl, rfl⟩

/-- Return dict of OrbitEngine.calculate_orbital_elements
(orbit_engine.py lines 111-120). -/
structure OrbitalElements where
  semi_major_axis_km : ℝ
  eccentricity : ℝ
  inclination_deg : ℝ
  period_minutes : ℝ
  apogee_km : ℝ
  perigee_km : ℝ
  energy : ℝ
  angular_momentum : ℝ

/-- Embedding of OrbitEngine.calculate_orbital_elements
(orbit_engine.py lines 82-120). -/
noncomputable def calculate_orbital_elements (pos vel : ℝ × ℝ × ℝ) : OrbitalElements :=
  let r := norm3 pos
  let v := norm3 vel
  let energy := v ^ 2 / 2 - mu / r
  let a := if energy ≠ 0 then -mu / (2 * energy) else 0
  let h := cross3 pos vel
  let h_mag := norm3 h
  let e_vec := div3 (sub3 (smul3 (v ^ 2 - mu / r) pos) (smul3 (dot3 pos vel) vel)) mu
  let e := norm3 e_vec
  let i := if h_mag > 0 then Real.arccos (h.2.2 / h_mag) else 0
  let period := if a > 0 then 2 * Real.pi * Real.sqrt (a ^ 3 / mu) else 0
  { semi_major_axis_km := a
    eccentricity := e
    inclination_deg := degrees i
    period_minutes := period / 60
    apogee_km := a * (1 + e) - earth_radius
    perigee_km := a * (1 - e) - earth_radius
    energy := energy
    angular_momentum := h_mag }

/-- Claim C9: for a state vector with nonzero position the osculating
element derivation is a total function (no degenerate branch raises) and
returns the documented sentinels: semi-major axis 0 when the specific
orbital energy is 0, inclination 0 when the angular momentum magnitude
is 0, and orbital period 0 when the semi-major axis is not positive. -/
theorem orbital_elements_degenerate_sentinels (pos vel : ℝ × ℝ × ℝ)
    (_hpos : pos ≠ (0, 0, 0)) :
    ((calculate_orbital_elements pos vel).energy = 0 →
        (calculate_orbital_elements pos vel).semi_major_axis_km = 0) ∧
      ((calculate_orbital_elements pos vel).angular_momentum = 0 →
        (calculate_orbital_elements pos vel).inclination_deg = 0) ∧
      ((calculate_orbital_elements pos vel).semi_major_axis_km ≤ 0 →
        (calculate_orbital_elements pos vel).period_minutes = 0) := by
  simp only [calculate_orbital_elements]
  refine ⟨?_, ?_, ?_⟩
  · intro h
    rw [if_neg (not_not_intro h)]
  · intro h
    rw [if_neg (by rw [h]; exact lt_irrefl 0)]
    simp [degrees]
  · intro h
    rw [if_neg (not_lt.mpr h)]
    norm_num

/-- Witness for claim C9 at position (1, 0, 0) and velocity (0, 0, 0),
where the angular momentum vanishes and the inclination sentinel 0 is
returned. -/
theorem orbital_elements_degenerate_sentinels_witness :
    ((1 : ℝ), (0 : ℝ), (0 : ℝ)) ≠ ((0 : ℝ), (0 : ℝ), (0 : ℝ)) ∧
      (calculate_orbital_elements (1, 0, 0) (0, 0, 0)).angular_momentum = 0 ∧
      (calculate_orbital_elements (1, 0, 0) (0, 0, 0)).inclination_deg = 0 := by
  have hpos : ((1 : ℝ), (0 : ℝ), (0 : ℝ)) ≠ ((0 : ℝ), (0 : ℝ), (0 : ℝ)) := by simp
  have hh : (calculate_orbital_elements (1, 0, 0) (0, 0, 0)).angular_momentum = 0 := by
    simp [calculate_orbital_elements, cross3, norm3]
  exact ⟨hpos, hh,
    (orbital_elements_degenerate_sentinels (1, 0, 0) (0, 0, 0) hpos).2.1 hh⟩
